import Mathlib

/-!
Verification of the hertz `secure` middleware: a shallow embedding of the
configuration builder (`src/secure.go`) and of the policy evaluator described
in the specification (the `policy.go` implementation file is not part of the
sources given; its behaviour is modelled from the spec, §4).
-/

set_option maxHeartbeats 1000000

/-- The `options` struct of `src/secure.go` (lines 13-65).  The Go field
`badHostHandler app.HandlerFunc` is an opaque callback: it is modelled as an
optional opaque handler identifier (`nil` becomes `none`).  The Go map
`sslProxyHeaders map[string]string` is modelled as an association list. -/
structure options where
  allowedHosts : List String
  WithSSLRedirect : Bool
  sslTemporaryRedirect : Bool
  sslHost : String
  stsSeconds : Int
  stsIncludeSubdomains : Bool
  frameDeny : Bool
  customFrameOptionsValue : String
  contentTypeNosniff : Bool
  browserXssFilter : Bool
  contentSecurityPolicy : String
  referrerPolicy : String
  isDevelopment : Bool
  badHostHandler : Option Nat
  ieNoOpen : Bool
  featurePolicy : String
  dontRedirectIPV4Hostnames : Bool
  sslProxyHeaders : List (String × String)
  deriving DecidableEq, Repr

/-- The Go type `Option func(o *options)`: a mutator of the options struct,
modelled functionally. -/
def SecureOption : Type := options → options

/-- The zero value of the Go `options` struct: every field at its zero/empty
value (`New` starts from it before applying the option list). -/
def zeroOptions : options where
  allowedHosts := []
  WithSSLRedirect := false
  sslTemporaryRedirect := false
  sslHost := ""
  stsSeconds := 0
  stsIncludeSubdomains := false
  frameDeny := false
  customFrameOptionsValue := ""
  contentTypeNosniff := false
  browserXssFilter := false
  contentSecurityPolicy := ""
  referrerPolicy := ""
  isDevelopment := false
  badHostHandler := none
  ieNoOpen := false
  featurePolicy := ""
  dontRedirectIPV4Hostnames := false
  sslProxyHeaders := []

/-- `WithAllowedHosts` (secure.go line 70). -/
def WithAllowedHosts (ss : List String) : SecureOption :=
  fun o => { o with allowedHosts := ss }

/-- `WithSSLRedirect` (secure.go line 78). -/
def WithSSLRedirect (b : Bool) : SecureOption :=
  fun o => { o with WithSSLRedirect := b }

/-- `WithSSLTemporaryRedirect` (secure.go line 86). -/
def WithSSLTemporaryRedirect (b : Bool) : SecureOption :=
  fun o => { o with sslTemporaryRedirect := b }

/-- `WithSSLHost` (secure.go line 94). -/
def WithSSLHost (s : String) : SecureOption :=
  fun o => { o with sslHost := s }

/-- `WithSTSSecond` (secure.go line 102). -/
def WithSTSSecond (sec : Int) : SecureOption :=
  fun o => { o with stsSeconds := sec }

/-- `WithSTSIncludeSubdomains` (secure.go line 110). -/
def WithSTSIncludeSubdomains (b : Bool) : SecureOption :=
  fun o => { o with stsIncludeSubdomains := b }

/-- `WithFrameDeny` (secure.go line 118). -/
def WithFrameDeny (b : Bool) : SecureOption :=
  fun o => { o with frameDeny := b }

/-- `WithCustomFrameOptionsValue` (secure.go line 126). -/
def WithCustomFrameOptionsValue (s : String) : SecureOption :=
  fun o => { o with customFrameOptionsValue := s }

/-- `WithContentTypeNosniff` (secure.go line 134). -/
def WithContentTypeNosniff (b : Bool) : SecureOption :=
  fun o => { o with contentTypeNosniff := b }

/-- `WithBrowserXssFilter` (secure.go line 142). -/
def WithBrowserXssFilter (b : Bool) : SecureOption :=
  fun o => { o with browserXssFilter := b }

/-- `WithContentSecurityPolicy` (secure.go line 150). -/
def WithContentSecurityPolicy (s : String) : SecureOption :=
  fun o => { o with contentSecurityPolicy := s }

/-- `WithReferrerPolicy` (secure.go line 158). -/
def WithReferrerPolicy (s : String) : SecureOption :=
  fun o => { o with referrerPolicy := s }

/-- `WithIsDevelopment` (secure.go line 165). -/
def WithIsDevelopment (b : Bool) : SecureOption :=
  fun o => { o with isDevelopment := b }

/-- `WithIENoOpen` (secure.go line 172). -/
def WithIENoOpen (b : Bool) : SecureOption :=
  fun o => { o with ieNoOpen := b }

/-- `WithBadHostHandler` (secure.go line 179); the handler is an opaque id. -/
def WithBadHostHandler (handler : Nat) : SecureOption :=
  fun o => { o with badHostHandler := some handler }

/-- `WithFeaturePolicy` (secure.go line 186). -/
def WithFeaturePolicy (s : String) : SecureOption :=
  fun o => { o with featurePolicy := s }

/-- `WithDontRedirectIPV4Hostnames` (secure.go line 195). -/
def WithDontRedirectIPV4Hostnames (b : Bool) : SecureOption :=
  fun o => { o with dontRedirectIPV4Hostnames := b }

/-- `WithSSLProxyHeaders` (secure.go line 203). -/
def WithSSLProxyHeaders (m : List (String × String)) : SecureOption :=
  fun o => { o with sslProxyHeaders := m }

/-- `func (o *options) Apply(opts []Option)` (secure.go lines 237-241): apply
each option in order, left to right, mutating the struct. -/
def options.Apply (o : options) (opts : List SecureOption) : options :=
  opts.foldl (fun acc f => f acc) o

/-- The configuration `New(opts...)` builds its policy from: the zero options
struct with the caller's options applied in order. -/
def newOptions (opts : List SecureOption) : options :=
  zeroOptions.Apply opts

/-- The preset option list built inside `Default` (secure.go lines 222-232),
in source order. -/
def defaultOptionList : List SecureOption :=
  [ WithSSLRedirect true,
    WithIsDevelopment false,
    WithSTSSecond 315360000,
    WithFrameDeny true,
    WithContentTypeNosniff true,
    WithBrowserXssFilter true,
    WithContentSecurityPolicy "default-src \x27self\x27",
    WithIENoOpen true,
    WithSSLProxyHeaders [("X-Forwarded-Proto", "https")] ]

/-- The configuration built by `Default(opts...)` (secure.go lines 221-235):
the preset list with the caller's options appended, applied to the zero
options struct via `New`. -/
def DefaultOptions (opts : List SecureOption) : options :=
  newOptions (defaultOptionList ++ opts)

/-- Modelled from the spec: the `RequestFacts` of §3 derived per request —
inbound host (possibly with port), request path and query, whether the
transport reports TLS, and the raw header set (association list, first
occurrence of a name wins on lookup). -/
structure RequestFacts where
  host : String
  path : String
  query : String
  isTLS : Bool
  headers : List (String × String)
  deriving DecidableEq, Repr

/-- Modelled from the spec: a redirect target URL in structured form —
scheme, host, path, query (§4 step 3). -/
structure RedirectTarget where
  scheme : String
  host : String
  path : String
  query : String
  deriving DecidableEq, Repr

/-- Modelled from the spec: the `Decision` output of §3 — Continue with the
headers to attach, Redirect with target and status, Reject with status, or
invocation of the configured bad-host handler (carrying its opaque id),
which also terminates the pipeline. -/
inductive Decision where
  | Continue : List (String × String) → Decision
  | Redirect : RedirectTarget → Nat → Decision
  | Reject : Nat → Decision
  | BadHostHandler : Nat → Decision
  deriving DecidableEq, Repr

/-- First-match lookup of a header name in an association list of headers. -/
def lookupHeader : List (String × String) → String → Option String
  | [], _ => none
  | (k, v) :: rest, key => if k = key then some v else lookupHeader rest key

/-- Modelled from the spec: the hostname portion of an inbound host value,
ignoring any `:port` suffix (§4 step 2 "hostname portion, ignoring port"). -/
def hostnamePortion (host : String) : String :=
  String.mk (host.toList.takeWhile (fun c => c ≠ ':'))

/-- Modelled from the spec: the host allow-list check of §4 step 2 — pass if
the list is empty, else the hostname portion must match an entry exactly. -/
def checkAllowedHost (cfg : options) (host : String) : Bool :=
  cfg.allowedHosts.isEmpty || cfg.allowedHosts.contains (hostnamePortion host)

/-- The numeric value of a digit string (list of decimal digit characters). -/
def octetVal (cs : List Char) : Nat :=
  cs.foldl (fun n c => n * 10 + (Char.toNat c - 48)) 0

/-- One dotted component of an IPv4 literal: one to three decimal digits with
value at most 255. -/
def isOctet (cs : List Char) : Bool :=
  decide (cs ≠ []) && decide (cs.length ≤ 3) && cs.all Char.isDigit
    && decide (octetVal cs ≤ 255)

/-- Split a character list at every occurrence of the separator. -/
def splitChars (sep : Char) : List Char → List (List Char)
  | [] => [[]]
  | c :: rest =>
    if c = sep then
      [] :: splitChars sep rest
    else
      match splitChars sep rest with
      | [] => [[c]]
      | g :: gs => (c :: g) :: gs

/-- Modelled from the spec: `isIPV4` of the missing policy implementation —
true when the host is a literal IPv4 address, with or without a `:port`
suffix (§4 step 3; behaviour pinned by `TestIsIpv4Host`). -/
def isIPV4 (host : String) : Bool :=
  let parts := splitChars (Char.ofNat 46) (hostnamePortion host).toList
  decide (parts.length = 4) && parts.all isOctet

/-- Modelled from the spec: "already secure" of §4 step 3 — the transport
reports TLS, or some configured proxy-header name is present on the request
with exactly its configured expected value. -/
def isSecureRequest (cfg : options) (req : RequestFacts) : Bool :=
  req.isTLS || cfg.sslProxyHeaders.any
    (fun p => decide (lookupHeader req.headers p.1 = some p.2))

/-- Modelled from the spec: the redirect target of §4 step 3 — scheme forced
to https, host replaced by the configured override when non-empty, path and
query copied from the request. -/
def redirectTarget (cfg : options) (req : RequestFacts) : RedirectTarget where
  scheme := "https"
  host := if cfg.sslHost ≠ "" then cfg.sslHost else req.host
  path := req.path
  query := req.query

/-- Modelled from the spec: redirect status of §4 step 3 — 301 permanent by
default, 302 when the temporary-redirect flag is set. -/
def redirectStatus (cfg : options) : Nat :=
  if cfg.sslTemporaryRedirect then 302 else 301

/-- The Strict-Transport-Security header value (§4 step 4). -/
def stsValue (cfg : options) : String :=
  "max-age=" ++ toString cfg.stsSeconds
    ++ (if cfg.stsIncludeSubdomains then "; includeSubdomains" else "")

/-- Strict-Transport-Security block: attached only when max-age is positive. -/
def stsBlock (cfg : options) : List (String × String) :=
  if cfg.stsSeconds > 0 then [("Strict-Transport-Security", stsValue cfg)] else []

/-- X-Frame-Options block: a custom value wins over the frame-deny flag. -/
def frameBlock (cfg : options) : List (String × String) :=
  if cfg.customFrameOptionsValue ≠ "" then
    [("X-Frame-Options", cfg.customFrameOptionsValue)]
  else if cfg.frameDeny then [("X-Frame-Options", "DENY")] else []

/-- X-Content-Type-Options block. -/
def nosniffBlock (cfg : options) : List (String × String) :=
  if cfg.contentTypeNosniff then [("X-Content-Type-Options", "nosniff")] else []

/-- X-XSS-Protection block. -/
def xssBlock (cfg : options) : List (String × String) :=
  if cfg.browserXssFilter then [("X-XSS-Protection", "1; mode=block")] else []

/-- X-Download-Options block. -/
def ieNoOpenBlock (cfg : options) : List (String × String) :=
  if cfg.ieNoOpen then [("X-Download-Options", "noopen")] else []

/-- Content-Security-Policy block. -/
def cspBlock (cfg : options) : List (String × String) :=
  if cfg.contentSecurityPolicy ≠ "" then
    [("Content-Security-Policy", cfg.contentSecurityPolicy)]
  else []

/-- Referrer-Policy block. -/
def referrerBlock (cfg : options) : List (String × String) :=
  if cfg.referrerPolicy ≠ "" then [("Referrer-Policy", cfg.referrerPolicy)] else []

/-- Feature-Policy block. -/
def featureBlock (cfg : options) : List (String × String) :=
  if cfg.featurePolicy ≠ "" then [("Feature-Policy", cfg.featurePolicy)] else []

/-- Modelled from the spec: the header decoration of §4 step 4 — attach each
header whose configuration is set (no gate on the connection being secure). -/
def responseHeaders (cfg : options) : List (String × String) :=
  stsBlock cfg ++ (frameBlock cfg ++ (nosniffBlock cfg ++ (xssBlock cfg
    ++ (ieNoOpenBlock cfg ++ (cspBlock cfg
      ++ (referrerBlock cfg ++ featureBlock cfg))))))

/-- Modelled from the spec: the policy evaluator of §4 (the missing
`policy.go` decision function) — development bypass, then host allow-list
check (bad-host handler or 403 on failure), then SSL enforcement with
proxy-header secure detection and the IPv4 literal exemption, then header
decoration. -/
def evaluate (cfg : options) (req : RequestFacts) : Decision :=
  if cfg.isDevelopment then
    Decision.Continue []
  else if checkAllowedHost cfg req.host = false then
    match cfg.badHostHandler with
    | some h => Decision.BadHostHandler h
    | none => Decision.Reject 403
  else if cfg.WithSSLRedirect = true ∧ isSecureRequest cfg req = false
      ∧ (cfg.dontRedirectIPV4Hostnames && isIPV4 req.host) = false then
    Decision.Redirect (redirectTarget cfg req) (redirectStatus cfg)
  else
    Decision.Continue (responseHeaders cfg)

/-- C1: with the development flag set, the evaluator returns Continue with
zero headers, for every configuration and every request. -/
theorem C1_development_bypass (cfg : options) (req : RequestFacts)
    (h : cfg.isDevelopment = true) :
    evaluate cfg req = Decision.Continue [] := by
  simp [evaluate, h]

/-- Witness for C1 at a concrete configuration (dev mode together with an
allow-list, SSL redirect and STS seconds) and a concrete request. -/
theorem C1_development_bypass_witness :
    (newOptions [WithAllowedHosts ["www.example.com"], WithSSLRedirect true,
        WithSTSSecond 315360000, WithIsDevelopment true]).isDevelopment = true
    ∧ evaluate
        (newOptions [WithAllowedHosts ["www.example.com"], WithSSLRedirect true,
          WithSTSSecond 315360000, WithIsDevelopment true])
        { host := "www3.example.com", path := "/foo", query := "",
          isTLS := false, headers := [] }
      = Decision.Continue [] :=
  ⟨rfl, C1_development_bypass _ _ rfl⟩

/-- C2 (counter-evidence): evaluating `Default` with no caller options, the
resulting configuration leaves `stsIncludeSubdomains` at its zero value
`false` — the preset list of secure.go lines 222-232 never calls
`WithSTSIncludeSubdomains`, although the doc comment on `Default`
(lines 209-220) lists `STSIncludeSubdomains: true`.  All other fields are as
the claim states. -/
theorem C2_default_sts_subdomains_bug :
    (DefaultOptions []).stsIncludeSubdomains = false
    ∧ DefaultOptions [] =
      { zeroOptions with
          WithSSLRedirect := true
          stsSeconds := 315360000
          frameDeny := true
          contentTypeNosniff := true
          browserXssFilter := true
          contentSecurityPolicy := "default-src \x27self\x27"
          ieNoOpen := true
          sslProxyHeaders := [("X-Forwarded-Proto", "https")] } :=
  ⟨rfl, rfl⟩

/-- C3: a request that reaches the SSL-enforcement step insecure and without
the IPv4 exemption is redirected to https, with the configured override host
when non-empty (else the original host), the original path and query, and
status 301 (302 when the temporary-redirect flag is set). -/
theorem C3_ssl_redirect_shape (cfg : options) (req : RequestFacts)
    (hdev : cfg.isDevelopment = false)
    (hallow : checkAllowedHost cfg req.host = true)
    (hssl : cfg.WithSSLRedirect = true)
    (hsec : isSecureRequest cfg req = false)
    (hskip : (cfg.dontRedirectIPV4Hostnames && isIPV4 req.host) = false) :
    evaluate cfg req = Decision.Redirect
      { scheme := "https",
        host := if cfg.sslHost ≠ "" then cfg.sslHost else req.host,
        path := req.path, query := req.query }
      (if cfg.sslTemporaryRedirect then 302 else 301) := by
  simp [evaluate, hdev, hallow, hssl, hsec, hskip, redirectTarget, redirectStatus]

/-- Witness for C3: SSL redirect with host override `secure.example.com`;
the plain-HTTP request to `www.example.com/foo` is answered with a 301
redirect to `https://secure.example.com/foo`. -/
theorem C3_ssl_redirect_shape_witness :
    evaluate (newOptions [WithSSLRedirect true, WithSSLHost "secure.example.com"])
      { host := "www.example.com", path := "/foo", query := "",
        isTLS := false, headers := [] }
    = Decision.Redirect
        { scheme := "https", host := "secure.example.com",
          path := "/foo", query := "" } 301 :=
  C3_ssl_redirect_shape
    (newOptions [WithSSLRedirect true, WithSSLHost "secure.example.com"])
    { host := "www.example.com", path := "/foo", query := "",
      isTLS := false, headers := [] }
    rfl (by decide) rfl (by decide) (by decide)

/-- C4: the allow-list check passes a host exactly when the list is empty or
the hostname portion (port stripped) equals one of the entries. -/
theorem C4_allow_list_iff (cfg : options) (host : String) :
    checkAllowedHost cfg host = true
    ↔ cfg.allowedHosts = [] ∨ hostnamePortion host ∈ cfg.allowedHosts := by
  simp [checkAllowedHost, List.isEmpty_iff]

/-- C5: a request whose host fails the allow-list check terminates the
pipeline — the configured bad-host handler is invoked when present,
otherwise Reject with status 403. -/
theorem C5_bad_host (cfg : options) (req : RequestFacts)
    (hdev : cfg.isDevelopment = false)
    (hbad : checkAllowedHost cfg req.host = false) :
    evaluate cfg req =
      (match cfg.badHostHandler with
        | some h => Decision.BadHostHandler h
        | none => Decision.Reject 403) := by
  simp [evaluate, hdev, hbad]

/-- Witness for C5: allow-list `[sub.example.com]`, host `www.example.com`,
no bad-host handler configured: the decision is Reject 403. -/
theorem C5_bad_host_witness :
    evaluate (newOptions [WithAllowedHosts ["sub.example.com"]])
      { host := "www.example.com", path := "/foo", query := "",
        isTLS := false, headers := [] }
    = Decision.Reject 403 :=
  C5_bad_host (newOptions [WithAllowedHosts ["sub.example.com"]])
    { host := "www.example.com", path := "/foo", query := "",
      isTLS := false, headers := [] }
    rfl (by decide)

/-- C6: with SSL-redirect enabled, a request is already secure exactly when
the transport reports TLS or some configured proxy header is present with
its configured value; when not secure (and not otherwise exempted) the
request is redirected. -/
theorem C6_proxy_header_secure (cfg : options) (req : RequestFacts)
    (hssl : cfg.WithSSLRedirect = true)
    (hdev : cfg.isDevelopment = false)
    (hallow : checkAllowedHost cfg req.host = true)
    (hskip : (cfg.dontRedirectIPV4Hostnames && isIPV4 req.host) = false) :
    (isSecureRequest cfg req = true
      ↔ req.isTLS = true
        ∨ ∃ p ∈ cfg.sslProxyHeaders, lookupHeader req.headers p.1 = some p.2)
    ∧ (isSecureRequest cfg req = false →
        evaluate cfg req
          = Decision.Redirect (redirectTarget cfg req) (redirectStatus cfg)) := by
  constructor
  · simp [isSecureRequest, List.any_eq_true]
  · intro hsec
    simp [evaluate, hdev, hallow, hssl, hsec, hskip]

/-- Witness for C6: proxy-header map expects `X-Arbitrary-Header:
arbitrary-value`; a plain-HTTP request carrying that header with value
`wrong-value` is not secure and is redirected with 301. -/
theorem C6_proxy_header_secure_witness :
    evaluate
      (newOptions [WithSSLRedirect true,
        WithSSLProxyHeaders [("X-Arbitrary-Header", "arbitrary-value")]])
      { host := "www.example.com", path := "/foo", query := "",
        isTLS := false, headers := [("X-Arbitrary-Header", "wrong-value")] }
    = Decision.Redirect
        { scheme := "https", host := "www.example.com",
          path := "/foo", query := "" } 301 :=
  (C6_proxy_header_secure
      (newOptions [WithSSLRedirect true,
        WithSSLProxyHeaders [("X-Arbitrary-Header", "arbitrary-value")]])
      { host := "www.example.com", path := "/foo", query := "",
        isTLS := false, headers := [("X-Arbitrary-Header", "wrong-value")] }
      rfl rfl (by decide) (by decide)).2 (by decide)

/-- C7: with SSL-redirect and the IPv4 exemption enabled, an insecure
request with a literal IPv4 host (with or without port) continues with the
decorated headers, while a non-IPv4 host is still redirected; the IPv4 test
behaves as on the hosts of `TestIsIpv4Host`. -/
theorem C7_ipv4_exemption (cfg : options) (req : RequestFacts)
    (hdev : cfg.isDevelopment = false)
    (hallow : checkAllowedHost cfg req.host = true)
    (hssl : cfg.WithSSLRedirect = true)
    (hdont : cfg.dontRedirectIPV4Hostnames = true)
    (hsec : isSecureRequest cfg req = false) :
    (isIPV4 req.host = true →
      evaluate cfg req = Decision.Continue (responseHeaders cfg))
    ∧ (isIPV4 req.host = false →
        evaluate cfg req
          = Decision.Redirect (redirectTarget cfg req) (redirectStatus cfg))
    ∧ isIPV4 "127.0.0.1" = true ∧ isIPV4 "127.0.0.1:8080" = true
    ∧ isIPV4 "www.example.com" = false ∧ isIPV4 "localhost" = false
    ∧ isIPV4 "localhost:8080" = false := by
  refine ⟨?_, ?_, by decide, by decide, by decide, by decide, by decide⟩
  · intro hip
    simp [evaluate, hdev, hallow, hssl, hdont, hip, hsec]
  · intro hip
    simp [evaluate, hdev, hallow, hssl, hdont, hip, hsec]

/-- Witness for C7: SSL redirect with the IPv4 exemption; the plain-HTTP
request to host `127.0.0.1` continues (no redirect, no headers configured). -/
theorem C7_ipv4_exemption_witness :
    evaluate
      (newOptions [WithSSLRedirect true, WithDontRedirectIPV4Hostnames true])
      { host := "127.0.0.1", path := "/foo", query := "",
        isTLS := false, headers := [] }
    = Decision.Continue [] :=
  (C7_ipv4_exemption
      (newOptions [WithSSLRedirect true, WithDontRedirectIPV4Hostnames true])
      { host := "127.0.0.1", path := "/foo", query := "",
        isTLS := false, headers := [] }
      rfl (by decide) rfl rfl (by decide)).1 (by decide)

/-- Lookup distributes over append when the left part misses the name. -/
theorem lookupHeader_append_miss (xs ys : List (String × String)) (k : String)
    (h : lookupHeader xs k = none) :
    lookupHeader (xs ++ ys) k = lookupHeader ys k := by
  induction xs with
  | nil => rfl
  | cons p rest ih =>
    obtain ⟨a, b⟩ := p
    simp only [lookupHeader, List.cons_append] at h ⊢
    by_cases hak : a = k
    · simp [hak] at h
    · simp only [if_neg hak] at h ⊢
      exact ih h

/-- Lookup distributes over append when the left part finds the name. -/
theorem lookupHeader_append_hit (xs ys : List (String × String)) (k v : String)
    (h : lookupHeader xs k = some v) :
    lookupHeader (xs ++ ys) k = some v := by
  induction xs with
  | nil => simp [lookupHeader] at h
  | cons p rest ih =>
    obtain ⟨a, b⟩ := p
    simp only [lookupHeader, List.cons_append] at h ⊢
    by_cases hak : a = k
    · simpa [hak] using h
    · simp only [if_neg hak] at h ⊢
      exact ih h

/-- The X-Frame-Options block never carries Strict-Transport-Security. -/
theorem frameBlock_no_sts (cfg : options) :
    lookupHeader (frameBlock cfg) "Strict-Transport-Security" = none := by
  unfold frameBlock
  split_ifs <;> rfl

/-- The X-Content-Type-Options block never carries Strict-Transport-Security. -/
theorem nosniffBlock_no_sts (cfg : options) :
    lookupHeader (nosniffBlock cfg) "Strict-Transport-Security" = none := by
  unfold nosniffBlock
  split_ifs <;> rfl

/-- The X-XSS-Protection block never carries Strict-Transport-Security. -/
theorem xssBlock_no_sts (cfg : options) :
    lookupHeader (xssBlock cfg) "Strict-Transport-Security" = none := by
  unfold xssBlock
  split_ifs <;> rfl

/-- The X-Download-Options block never carries Strict-Transport-Security. -/
theorem ieNoOpenBlock_no_sts (cfg : options) :
    lookupHeader (ieNoOpenBlock cfg) "Strict-Transport-Security" = none := by
  unfold ieNoOpenBlock
  split_ifs <;> rfl

/-- The Content-Security-Policy block never carries Strict-Transport-Security. -/
theorem cspBlock_no_sts (cfg : options) :
    lookupHeader (cspBlock cfg) "Strict-Transport-Security" = none := by
  unfold cspBlock
  split_ifs <;> rfl

/-- The Referrer-Policy block never carries Strict-Transport-Security. -/
theorem referrerBlock_no_sts (cfg : options) :
    lookupHeader (referrerBlock cfg) "Strict-Transport-Security" = none := by
  unfold referrerBlock
  split_ifs <;> rfl

/-- The Feature-Policy block never carries Strict-Transport-Security. -/
theorem featureBlock_no_sts (cfg : options) :
    lookupHeader (featureBlock cfg) "Strict-Transport-Security" = none := by
  unfold featureBlock
  split_ifs <;> rfl

/-- C8: the decorated headers carry Strict-Transport-Security exactly when
the configured max-age seconds are positive, and its value is
`max-age=<seconds>` with `; includeSubdomains` appended exactly when the
subdomain flag is set. -/
theorem C8_sts_header (cfg : options) :
    lookupHeader (responseHeaders cfg) "Strict-Transport-Security"
      = (if cfg.stsSeconds > 0 then
          some ("max-age=" ++ toString cfg.stsSeconds
            ++ (if cfg.stsIncludeSubdomains then "; includeSubdomains" else ""))
        else none) := by
  by_cases h : cfg.stsSeconds > 0
  · rw [if_pos h]
    unfold responseHeaders
    have hhit : lookupHeader (stsBlock cfg) "Strict-Transport-Security"
        = some (stsValue cfg) := by
      simp [stsBlock, h, lookupHeader]
    rw [lookupHeader_append_hit _ _ _ _ hhit]
    simp [stsValue]
  · rw [if_neg h]
    unfold responseHeaders
    have hsts : lookupHeader (stsBlock cfg) "Strict-Transport-Security" = none := by
      simp [stsBlock, h, lookupHeader]
    rw [lookupHeader_append_miss _ _ _ hsts,
      lookupHeader_append_miss _ _ _ (frameBlock_no_sts cfg),
      lookupHeader_append_miss _ _ _ (nosniffBlock_no_sts cfg),
      lookupHeader_append_miss _ _ _ (xssBlock_no_sts cfg),
      lookupHeader_append_miss _ _ _ (ieNoOpenBlock_no_sts cfg),
      lookupHeader_append_miss _ _ _ (cspBlock_no_sts cfg),
      lookupHeader_append_miss _ _ _ (referrerBlock_no_sts cfg),
      featureBlock_no_sts]

/-- C9: the evaluator is a pure function of the configuration and the
request facts — identical inputs yield identical decisions. -/
theorem C9_deterministic (cfg cfg' : options) (req req' : RequestFacts)
    (hc : cfg = cfg') (hr : req = req') :
    evaluate cfg req = evaluate cfg' req' := by
  rw [hc, hr]

/-- Witness for C9 at a concrete configuration and request. -/
theorem C9_deterministic_witness :
    evaluate (DefaultOptions [])
        { host := "www.example.com", path := "/foo", query := "",
          isTLS := false, headers := [] }
      = evaluate (DefaultOptions [])
        { host := "www.example.com", path := "/foo", query := "",
          isTLS := false, headers := [] } :=
  C9_deterministic _ _ _ _ rfl rfl

/-- Applying a list of options that all leave a field unchanged leaves that
field unchanged. -/
theorem apply_preserves_field {α : Type} (g : options → α) :
    ∀ (post : List SecureOption),
      (∀ f ∈ post, ∀ x, g (f x) = g x) → ∀ o : options, g (o.Apply post) = g o := by
  intro post
  induction post with
  | nil => intro _ o; rfl
  | cons f t ih =>
    intro hpost o
    have step : o.Apply (f :: t) = (f o).Apply t := rfl
    rw [step, ih (fun f hf x => hpost f (List.mem_cons_of_mem _ hf) x) (f o),
      hpost f (List.mem_cons_self f t) o]

/-- C10: `Apply` runs the option list left to right, so an option that sets
a field, followed only by options that do not touch that field, determines
the field's final value — in particular a caller option to `Default`
overrides the corresponding preset value, the caller list being appended
after the preset list. -/
theorem C10_later_option_wins {α : Type} (o : options)
    (pre post : List SecureOption) (f : SecureOption) (g : options → α) (v : α)
    (hf : ∀ x, g (f x) = v)
    (hpost : ∀ h ∈ post, ∀ x, g (h x) = g x) :
    g (o.Apply (pre ++ f :: post)) = v := by
  have hsplit : o.Apply (pre ++ f :: post) = (f (o.Apply pre)).Apply post := by
    simp [options.Apply, List.foldl_append]
  rw [hsplit, apply_preserves_field g post hpost (f (o.Apply pre)), hf]

/-- Witness for C10: the caller option `WithSSLRedirect false` passed to
`Default` overrides the preset `WithSSLRedirect true`. -/
theorem C10_later_option_wins_witness :
    (DefaultOptions [WithSSLRedirect false]).WithSSLRedirect = false :=
  C10_later_option_wins zeroOptions defaultOptionList [] (WithSSLRedirect false)
    (fun o => o.WithSSLRedirect) false (fun _ => rfl)
    (fun h hh => absurd hh (List.not_mem_nil h))
